import Mathlib

/-!
Verification development for the record-linkage and multi-source price
estimation core of the immo-agent-paris repository.

The definitions below are shallow embeddings of the Python source:
* `src/src/analysis/price_sources/base.py` — `PriceEstimate`,
  `MultiSourceEstimate` and their methods;
* `src/src/analysis/price_sources/dvf_source.py` — the inlined
  outlier-filter + median aggregation of `DVFPriceSource.get_price_estimate`;
* `src/src/scrapers/cross_validator.py` — text normalisation, the entity
  matcher, the field-level merger, the geo-enrichment pass and the
  `validate_and_merge_all` pipeline.

Modelling conventions:
* Python `float` values are modelled as `ℚ`; Python `int` as `ℤ` (or `ℕ`
  for list indices); `None` as `Option.none`.
* Python truthiness tests (`if x:`) are modelled per type: a number is
  truthy iff non-null and non-zero, a string iff non-empty, a date or an
  enum member iff present.
* `float ** 0.5` (square root, used only inside the inter-source agreement
  computation) is kept abstract as an explicit function parameter `sqrtQ`,
  since no claim depends on its value.
* `difflib.SequenceMatcher.ratio` (Python standard library, not part of the
  repository) is kept abstract as an explicit function parameter `ratio`
  applied to the normalised strings.
-/

/-! ## base.py: SourceType, ReliabilityLevel, PriceEstimate -/

/-- `SourceType` enum from `base.py`. -/
inductive SourceType where
  | dvf
  | commune_stats
  | listings
  | notaires
deriving DecidableEq

/-- `ReliabilityLevel` enum from `base.py`. -/
inductive ReliabilityLevel where
  | high
  | medium
  | low
  | insufficient
deriving DecidableEq

/-- `PriceEstimate` dataclass from `base.py`.  The display-only fields
(`comparables`, `retrieved_at`, `source_url`, `notes`, `source_name`) are
omitted: no method of the estimation core reads them. -/
structure PriceEstimate where
  source_type : SourceType
  prix_m2 : Option ℚ
  prix_total : Option ℚ := none
  nb_data_points : ℤ := 0
  date_range_days : ℤ := 0
  geographic_match : String := ""
deriving DecidableEq

/-- `PriceEstimate.confidence_score` from `base.py` lines 48-79: sum of a
sample-count component (max 40), a recency component (max 30) and a
geographic-match component (max 30). -/
def confidence_score (e : PriceEstimate) : ℚ :=
  (if 20 ≤ e.nb_data_points then 40
   else if 10 ≤ e.nb_data_points then 30
   else if 5 ≤ e.nb_data_points then 20
   else if 3 ≤ e.nb_data_points then 10
   else 0)
  + (if e.date_range_days ≤ 180 then 30
     else if e.date_range_days ≤ 365 then 20
     else if e.date_range_days ≤ 730 then 10
     else 0)
  + (if e.geographic_match = "exact" then 30
     else if e.geographic_match = "commune" then 20
     else if e.geographic_match = "department" then 10
     else 0)

/-- Python truthiness of an `Optional[float]`: `None` and `0.0` are falsy. -/
def truthy_prix (o : Option ℚ) : Bool :=
  match o with
  | none => false
  | some v => decide (v ≠ 0)

/-- The price-per-area value carried by an estimate (`e.prix_m2` read as a
number; on estimates whose `prix_m2` is non-null this is exactly the value). -/
def pm2 (e : PriceEstimate) : ℚ := e.prix_m2.getD 0

/-- Python `min(l)` for a non-empty list. -/
def list_min (l : List ℚ) : ℚ := l.foldl min (l.headD 0)

/-- Python `max(l)` for a non-empty list. -/
def list_max (l : List ℚ) : ℚ := l.foldl max (l.headD 0)

/-- `MultiSourceEstimate` dataclass from `base.py` (the `analysis_notes`
display field is omitted; no method of the core reads it). -/
structure MultiSourceEstimate where
  estimates : List PriceEstimate := []
  prix_m2_combined : Option ℚ := none
  prix_m2_min : Option ℚ := none
  prix_m2_max : Option ℚ := none
  reliability : ReliabilityLevel := .insufficient
  reliability_score : ℚ := 0
  sources_agreement : ℚ := 0
  dvf_estimate : Option ℚ := none
  listings_estimate : Option ℚ := none
  commune_estimate : Option ℚ := none
deriving DecidableEq

/-- The freshly-constructed `MultiSourceEstimate()` with all dataclass
defaults. -/
def MultiSourceEstimate.init : MultiSourceEstimate := {}

/-- `MultiSourceEstimate._calculate_reliability` from `base.py` lines
143-181.  `sqrtQ` stands for the Python `** 0.5` square root. -/
def calculate_reliability (sqrtQ : ℚ → ℚ) (m : MultiSourceEstimate) :
    MultiSourceEstimate :=
  if m.estimates = [] then
    { m with reliability := .insufficient, reliability_score := 0 }
  else
    let avg_confidence : ℚ :=
      (m.estimates.map confidence_score).sum / (m.estimates.length : ℚ)
    let source_bonus : ℚ := min 20 ((m.estimates.length : ℚ) * 10)
    let prices := (m.estimates.filter (fun e => truthy_prix e.prix_m2)).map pm2
    let agreement : ℚ :=
      if 2 ≤ prices.length then
        let mean_price := prices.sum / (prices.length : ℚ)
        if 0 < mean_price then
          let variance :=
            (prices.map (fun p => (p - mean_price) ^ 2)).sum / (prices.length : ℚ)
          let cv := sqrtQ variance / mean_price
          max 0 (100 - cv * 200)
        else 0
      else 50
    let score : ℚ :=
      min 100 (avg_confidence * (1 / 2) + source_bonus + agreement * (3 / 10))
    { m with
      sources_agreement := agreement,
      reliability_score := score,
      reliability :=
        if 70 ≤ score ∧ 2 ≤ m.estimates.length then .high
        else if 40 ≤ score then .medium
        else if 0 < score then .low
        else .insufficient }

/-- One step of the per-source-type breakdown loop of `_recalculate`
(`base.py` lines 131-138). -/
def breakdown_step (acc : MultiSourceEstimate) (e : PriceEstimate) :
    MultiSourceEstimate :=
  match e.source_type with
  | .dvf => { acc with dvf_estimate := e.prix_m2 }
  | .listings => { acc with listings_estimate := e.prix_m2 }
  | .commune_stats => { acc with commune_estimate := e.prix_m2 }
  | .notaires => acc

/-- `MultiSourceEstimate._recalculate` from `base.py` lines 112-141. -/
def recalculate (sqrtQ : ℚ → ℚ) (m : MultiSourceEstimate) :
    MultiSourceEstimate :=
  let valid_estimates := m.estimates.filter (fun e => truthy_prix e.prix_m2)
  if valid_estimates = [] then m
  else
    let prices := valid_estimates.map pm2
    let weights := valid_estimates.map confidence_score
    let combined : ℚ :=
      if 0 < weights.sum then
        ((prices.zip weights).map (fun pw => pw.1 * pw.2)).sum / weights.sum
      else prices.sum / (prices.length : ℚ)
    let m1 := { m with
      prix_m2_combined := some combined,
      prix_m2_min := some (list_min prices),
      prix_m2_max := some (list_max prices) }
    let m2 := valid_estimates.foldl breakdown_step m1
    calculate_reliability sqrtQ m2

/-- `MultiSourceEstimate.add_estimate` from `base.py` lines 106-110: the
estimate is appended (and everything recomputed) only when
`estimate.prix_m2` is truthy. -/
def add_estimate (sqrtQ : ℚ → ℚ) (m : MultiSourceEstimate)
    (e : PriceEstimate) : MultiSourceEstimate :=
  if truthy_prix e.prix_m2 then
    recalculate sqrtQ { m with estimates := m.estimates ++ [e] }
  else m

/-- The state reached from a fresh `MultiSourceEstimate()` after a sequence
of `add_estimate` calls. -/
def run_estimates (sqrtQ : ℚ → ℚ) (l : List PriceEstimate) :
    MultiSourceEstimate :=
  l.foldl (add_estimate sqrtQ) MultiSourceEstimate.init

/-- The reliability classification invariant stated by the specification:
`high` iff score ≥ 70 and at least two accumulated estimates; otherwise
`medium` iff score ≥ 40; otherwise `low` iff score > 0; otherwise
`insufficient`. -/
def ReliabilityLevelInv (m : MultiSourceEstimate) : Prop :=
  (m.reliability = .high ↔
    70 ≤ m.reliability_score ∧ 2 ≤ m.estimates.length) ∧
  (m.reliability = .medium ↔
    ¬(70 ≤ m.reliability_score ∧ 2 ≤ m.estimates.length) ∧
    40 ≤ m.reliability_score) ∧
  (m.reliability = .low ↔
    ¬(70 ≤ m.reliability_score ∧ 2 ≤ m.estimates.length) ∧
    ¬(40 ≤ m.reliability_score) ∧ 0 < m.reliability_score) ∧
  (m.reliability = .insufficient ↔
    ¬(70 ≤ m.reliability_score ∧ 2 ≤ m.estimates.length) ∧
    ¬(40 ≤ m.reliability_score) ∧ ¬(0 < m.reliability_score))

/-- Concrete estimate with confidence score 90 (20 data points → 40 pts,
age 0 days → 30 pts, `commune` match → 20 pts): used to exercise the
single-source reliability gate. -/
def high_conf_estimate : PriceEstimate :=
  { source_type := .dvf, prix_m2 := some 10000, nb_data_points := 20,
    date_range_days := 0, geographic_match := "commune" }

/-- Concrete estimate pair used to evaluate the confidence-score
monotonicity theorem: 4 data points, 100 days old, exact match. -/
def sample_estimate_a : PriceEstimate :=
  { source_type := .dvf, prix_m2 := none, nb_data_points := 4,
    date_range_days := 100, geographic_match := "exact" }

/-- Same as `sample_estimate_a` with a larger sample count. -/
def sample_estimate_b : PriceEstimate :=
  { sample_estimate_a with nb_data_points := 12 }

/-- The combined price as computed by `_recalculate` over a list of
(truthy-priced) estimates: the confidence-weighted average when the weight
total is positive, otherwise the plain arithmetic mean. -/
def weighted_combined (l : List PriceEstimate) : ℚ :=
  if 0 < (l.map confidence_score).sum then
    (l.map (fun e => pm2 e * confidence_score e)).sum /
      (l.map confidence_score).sum
  else (l.map pm2).sum / (l.length : ℚ)

/-- Combiner state invariant: every accumulated estimate has a truthy
(non-null, non-zero) price, and after at least one accumulation the
combined/min/max fields hold the recomputed values. -/
def RecalcInv (m : MultiSourceEstimate) : Prop :=
  (∀ e ∈ m.estimates, truthy_prix e.prix_m2 = true) ∧
  (m.estimates ≠ [] →
    m.prix_m2_combined = some (weighted_combined m.estimates) ∧
    m.prix_m2_min = some (list_min (m.estimates.map pm2)) ∧
    m.prix_m2_max = some (list_max (m.estimates.map pm2)))

/-- Concrete estimate: price 1000, confidence 90. -/
def estimate_w90 : PriceEstimate :=
  { source_type := .dvf, prix_m2 := some 1000, nb_data_points := 20,
    date_range_days := 0, geographic_match := "commune" }

/-- Concrete estimate: price 4000, confidence 30. -/
def estimate_w30 : PriceEstimate :=
  { source_type := .listings, prix_m2 := some 4000, nb_data_points := 10,
    date_range_days := 9999, geographic_match := "" }

/-- Concrete estimate whose price-per-area is exactly 0 (non-null). -/
def zero_price_estimate : PriceEstimate :=
  { source_type := .dvf, prix_m2 := some 0 }

/-! ## dvf_source.py: outlier filter and median aggregation -/

/-- `DVFPriceSource.MIN_PRICE_M2` (`dvf_source.py` line 24). -/
def MIN_PRICE_M2 : ℚ := 500

/-- `DVFPriceSource.MAX_PRICE_M2` (`dvf_source.py` line 25). -/
def MAX_PRICE_M2 : ℚ := 15000

/-- `DVFPriceSource.MIN_COMPARABLES` (`dvf_source.py` line 26). -/
def MIN_COMPARABLES : ℕ := 3

/-- The outlier-filter loop of `DVFPriceSource.get_price_estimate`
(`dvf_source.py` lines 82-95): each transaction contributes its `prix_m2`
iff that value is truthy and `MIN_PRICE_M2 <= prix_m2 <= MAX_PRICE_M2`.
The append-in-a-loop is modelled as a `filterMap` over the transactions'
`prix_m2` fields. -/
def dvf_valid_prices (samples : List (Option ℚ)) : List ℚ :=
  samples.filterMap (fun o =>
    if truthy_prix o ∧ MIN_PRICE_M2 ≤ o.getD 0 ∧ o.getD 0 ≤ MAX_PRICE_M2
    then some (o.getD 0) else none)

/-- The aggregation inlined in `DVFPriceSource.get_price_estimate`
(`dvf_source.py` lines 97-114): null central value below `MIN_COMPARABLES`
surviving prices, otherwise the index-computed median of the sorted
survivors; the surviving count is reported in both cases
(`nb_data_points`). -/
def dvf_aggregate (samples : List (Option ℚ)) : Option ℚ × ℕ :=
  let valid_prices := dvf_valid_prices samples
  if valid_prices.length < MIN_COMPARABLES then (none, valid_prices.length)
  else
    let sorted := valid_prices.mergeSort
    let n := sorted.length
    (some (if n % 2 = 0 then
        (sorted.getD (n / 2 - 1) 0 + sorted.getD (n / 2) 0) / 2
      else sorted.getD (n / 2) 0), valid_prices.length)

/-- The survivors as the claim describes them: the non-null samples x with
`MIN_PRICE_M2 <= x <= MAX_PRICE_M2`. -/
def claim_survivors (samples : List (Option ℚ)) : List ℚ :=
  (samples.filterMap id).filter
    (fun x => decide (MIN_PRICE_M2 ≤ x) && decide (x ≤ MAX_PRICE_M2))

/-- The claim's median of an (already sorted) list: middle element for odd
length, mean of the two middle elements for even length. -/
def median_of_sorted (l : List ℚ) : ℚ :=
  if l.length % 2 = 0 then
    (l.getD (l.length / 2 - 1) 0 + l.getD (l.length / 2) 0) / 2
  else l.getD (l.length / 2) 0

/-! ## cross_validator.py: data model and text normalisation -/

/-- `PropertyType` enum from `models.py`. -/
inductive PropertyType where
  | appartement
  | maison
  | local_commercial
  | terrain
  | parking
  | autre
deriving DecidableEq

/-- The `Auction` dataclass from `models.py`, restricted to the fields the
cross-validator's matcher, merger and geo-enrichment read (strings default
to `""`, which is the dataclass's null state for them; optional numerics
default to `None`).  Fields not consulted by any verified claim
(`url`, `heure_vente`, `dates_visite`, lawyer/PV/photo/document fields,
descriptions, timestamps) are omitted.  `date_vente` is an abstract date
modelled by an integer ordinal (only equality is used). -/
structure Auction where
  source : String := ""
  adresse : String := ""
  code_postal : String := ""
  ville : String := ""
  department : String := ""
  type_bien : PropertyType := .autre
  surface : Option ℚ := none
  nb_pieces : Option ℤ := none
  mise_a_prix : Option ℚ := none
  date_vente : Option ℤ := none
  tribunal : String := ""
deriving DecidableEq

instance : Inhabited Auction := ⟨{}⟩

/-- Python truthiness of an optional number: `None` and zero are falsy. -/
def truthyN {α : Type} [DecidableEq α] (zero : α) (o : Option α) : Prop :=
  o ≠ none ∧ o ≠ some zero

instance {α : Type} [DecidableEq α] (zero : α) (o : Option α) :
    Decidable (truthyN zero o) := by
  unfold truthyN
  infer_instance

/-- Python `\s` whitespace characters (ASCII range). -/
def py_is_space (c : Char) : Bool :=
  c == ' ' || c == '\t' || c == '\n' || c == '\r' ||
    c == Char.ofNat 11 || c == Char.ofNat 12

/-- Python `str.lower()` restricted to ASCII letters plus the accented
letters the normaliser folds. -/
def py_lower (c : Char) : Char :=
  if 'A' ≤ c ∧ c ≤ 'Z' then Char.ofNat (c.toNat + 32)
  else if c = 'À' then 'à' else if c = 'Â' then 'â' else if c = 'Ä' then 'ä'
  else if c = 'É' then 'é' else if c = 'È' then 'è' else if c = 'Ê' then 'ê'
  else if c = 'Ë' then 'ë' else if c = 'Î' then 'î' else if c = 'Ï' then 'ï'
  else if c = 'Ô' then 'ô' else if c = 'Ö' then 'ö' else if c = 'Ù' then 'ù'
  else if c = 'Û' then 'û' else if c = 'Ü' then 'ü' else if c = 'Ç' then 'ç'
  else c

/-- The character replacement table of `_normalize_text`
(`cross_validator.py` lines 99-109): accents folded to base letters,
hyphens and apostrophes to spaces.  Each rule maps one character to one
character and no output is itself a rule key, so the sequential
`str.replace` loop is a single character map. -/
def replace_char (c : Char) : Char :=
  if c = 'é' ∨ c = 'è' ∨ c = 'ê' ∨ c = 'ë' then 'e'
  else if c = 'à' ∨ c = 'â' ∨ c = 'ä' then 'a'
  else if c = 'ù' ∨ c = 'û' ∨ c = 'ü' then 'u'
  else if c = 'ô' ∨ c = 'ö' then 'o'
  else if c = 'î' ∨ c = 'ï' then 'i'
  else if c = 'ç' then 'c'
  else if c = '-' ∨ c = Char.ofNat 39 then ' '
  else c

/-- `re.sub(r"\s+", " ", _)`: collapse each whitespace run to one space.
The boolean argument records whether the previous character was
whitespace. -/
def collapse_ws : Bool → List Char → List Char
  | _, [] => []
  | prev, c :: cs =>
    if py_is_space c then
      if prev then collapse_ws true cs else ' ' :: collapse_ws true cs
    else c :: collapse_ws false cs

/-- Python `str.strip()`. -/
def py_strip (l : List Char) : List Char :=
  ((l.dropWhile py_is_space).reverse.dropWhile py_is_space).reverse

/-- `CrossValidator._normalize_text` (`cross_validator.py` lines 91-110):
lowercase, strip, collapse whitespace, then apply the replacement table.
The empty-input guard returns `""`, which the pipeline below reproduces. -/
def normalize_text (s : String) : String :=
  String.mk ((collapse_ws false (py_strip (s.toList.map py_lower))).map
    replace_char)

/-- `CrossValidator._similarity` (`cross_validator.py` lines 112-118):
0 for a falsy side, otherwise `SequenceMatcher.ratio` — kept abstract as
`ratio` — on the normalised strings. -/
def similarity (ratio : String → String → ℚ) (a b : String) : ℚ :=
  if a = "" ∨ b = "" then 0
  else ratio (normalize_text a) (normalize_text b)

/-- The `CrossValidator.POSTAL_CODES` table (`cross_validator.py` lines
44-79), in insertion order. -/
def POSTAL_CODES : List (String × String) := [
  ("paris", "75001"), ("paris 1er", "75001"), ("paris 2eme", "75002"),
  ("paris 3eme", "75003"), ("paris 4eme", "75004"), ("paris 5eme", "75005"),
  ("paris 6eme", "75006"), ("paris 7eme", "75007"), ("paris 8eme", "75008"),
  ("paris 9eme", "75009"), ("paris 10eme", "75010"),
  ("paris 11eme", "75011"), ("paris 12eme", "75012"),
  ("paris 13eme", "75013"), ("paris 14eme", "75014"),
  ("paris 15eme", "75015"), ("paris 16eme", "75016"),
  ("paris 17eme", "75017"), ("paris 18eme", "75018"),
  ("paris 19eme", "75019"), ("paris 20eme", "75020"),
  ("boulogne-billancourt", "92100"), ("nanterre", "92000"),
  ("courbevoie", "92400"), ("colombes", "92700"),
  ("asnieres-sur-seine", "92600"), ("rueil-malmaison", "92500"),
  ("levallois-perret", "92300"), ("issy-les-moulineaux", "92130"),
  ("neuilly-sur-seine", "92200"), ("antony", "92160"),
  ("clamart", "92140"), ("montrouge", "92120"), ("meudon", "92190"),
  ("suresnes", "92150"), ("puteaux", "92800"),
  ("gennevilliers", "92230"), ("clichy", "92110"),
  ("malakoff", "92240"), ("vanves", "92170"), ("chatillon", "92320"),
  ("bagneux", "92220"), ("fontenay-aux-roses", "92260"),
  ("le plessis-robinson", "92350"), ("sceaux", "92330"),
  ("bourg-la-reine", "92340"), ("chatenay-malabry", "92290"),
  ("saint-denis", "93200"), ("montreuil", "93100"),
  ("aubervilliers", "93300"), ("aulnay-sous-bois", "93600"),
  ("drancy", "93700"), ("noisy-le-grand", "93160"),
  ("pantin", "93500"), ("bondy", "93140"),
  ("epinay-sur-seine", "93800"), ("sevran", "93270"),
  ("le blanc-mesnil", "93150"), ("bobigny", "93000"),
  ("saint-ouen", "93400"), ("rosny-sous-bois", "93110"),
  ("livry-gargan", "93190"), ("la courneuve", "93120"),
  ("bagnolet", "93170"), ("le pre-saint-gervais", "93310"),
  ("les lilas", "93260"), ("romainville", "93230"),
  ("noisy-le-sec", "93130"), ("villepinte", "93420"),
  ("tremblay-en-france", "93290"), ("stains", "93240"),
  ("creteil", "94000"), ("vitry-sur-seine", "94400"),
  ("saint-maur-des-fosses", "94100"), ("champigny-sur-marne", "94500"),
  ("ivry-sur-seine", "94200"), ("maisons-alfort", "94700"),
  ("fontenay-sous-bois", "94120"), ("villejuif", "94800"),
  ("vincennes", "94300"), ("alfortville", "94140"),
  ("choisy-le-roi", "94600"), ("le kremlin-bicetre", "94270"),
  ("cachan", "94230"), ("charenton-le-pont", "94220"),
  ("nogent-sur-marne", "94130"), ("joinville-le-pont", "94340"),
  ("saint-mande", "94160"), ("thiais", "94320"), ("orly", "94310"),
  ("gentilly", "94250"), ("arcueil", "94110"), ("fresnes", "94260"),
  ("le perreux-sur-marne", "94170"), ("bry-sur-marne", "94360"),
  ("sucy-en-brie", "94370")]

/-- Dictionary lookup `POSTAL_CODES.get(city)` / `city in POSTAL_CODES`
(keys are unique, so first match suffices). -/
def postal_codes_get (k : String) : Option String :=
  (POSTAL_CODES.find? (fun kv => kv.1 == k)).map (fun kv => kv.2)

/-- `CITIES_BY_POSTAL = {v: k for k, v in POSTAL_CODES.items()}`: later
entries overwrite earlier ones, so lookup is the LAST pair with the given
postal code, i.e. the first in the reversed table. -/
def cities_by_postal_get (p : String) : Option String :=
  (POSTAL_CODES.reverse.find? (fun kv => kv.2 == p)).map (fun kv => kv.1)

/-- The strict 5-digit postal-code pattern of `_pick_best_value`
(`re.match(r"^\d{5}$", _)`, modelled for ASCII strings). -/
def is_five_digits (s : String) : Bool :=
  s.length == 5 && s.toList.all (fun c => c.isDigit)

/-! ## cross_validator.py: field-level merger -/

/-- `_pick_best_value` for long-text fields (adresse, description,
avocat_adresse): the common truthiness prelude (lines 184-192), then
prefer the longer string (lines 195-199). -/
def pick_best_value_text (val1 val2 source1 source2 : String) :
    Option String × String :=
  if val1 = "" ∧ val2 = "" then (none, "")
  else if val1 ≠ "" ∧ val2 = "" then (some val1, source1)
  else if val2 ≠ "" ∧ val1 = "" then (some val2, source2)
  else if val2.length < val1.length then (some val1, source1)
  else (some val2, source2)

/-- `_pick_best_value` for the `code_postal` field (lines 184-210):
truthiness prelude, then prefer the value matching the strict 5-digit
pattern; both valid or both invalid falls back to source 1. -/
def pick_best_value_postal (val1 val2 source1 source2 : String) :
    Option String × String :=
  if val1 = "" ∧ val2 = "" then (none, "")
  else if val1 ≠ "" ∧ val2 = "" then (some val1, source1)
  else if val2 ≠ "" ∧ val1 = "" then (some val2, source2)
  else if is_five_digits val1 && !is_five_digits val2 then (some val1, source1)
  else if is_five_digits val2 && !is_five_digits val1 then (some val2, source2)
  else (some val1, source1)

/-- `_pick_best_value` for the `ville` field (lines 212-226): prefer a
city known to the reference table, then the longer name, then source 2. -/
def pick_best_value_ville (val1 val2 source1 source2 : String) :
    Option String × String :=
  if val1 = "" ∧ val2 = "" then (none, "")
  else if val1 ≠ "" ∧ val2 = "" then (some val1, source1)
  else if val2 ≠ "" ∧ val1 = "" then (some val2, source2)
  else
    let v1_known := (postal_codes_get (normalize_text val1)).isSome
    let v2_known := (postal_codes_get (normalize_text val2)).isSome
    if v1_known && !v2_known then (some val1, source1)
    else if v2_known && !v1_known then (some val2, source2)
    else if val2.length < val1.length then (some val1, source1)
    else if val1.length < val2.length then (some val2, source2)
    else (some val2, source2)

/-- `_pick_best_value` for numeric fields (surface, nb_pieces,
nb_chambres, mise_a_prix; lines 228-235): truthiness prelude, then the
(redundant, mirrored) non-zero preference, then source 1. -/
def pick_best_value_numeric {α : Type} [DecidableEq α] (zero : α)
    (val1 val2 : Option α) (source1 source2 : String) : Option α × String :=
  if ¬truthyN zero val1 ∧ ¬truthyN zero val2 then (none, "")
  else if truthyN zero val1 ∧ ¬truthyN zero val2 then (val1, source1)
  else if truthyN zero val2 ∧ ¬truthyN zero val1 then (val2, source2)
  else if truthyN zero val1 ∧ (¬truthyN zero val2 ∨ val2 = some zero) then
    (val1, source1)
  else if truthyN zero val2 ∧ (¬truthyN zero val1 ∨ val1 = some zero) then
    (val2, source2)
  else (val1, source1)

/-- `_pick_best_value` default branch for an optional date field
(truthiness = presence): prelude then source 1 (lines 184-192, 250-251). -/
def pick_best_value_date (val1 val2 : Option ℤ) (source1 source2 : String) :
    Option ℤ × String :=
  if val1 = none ∧ val2 = none then (none, "")
  else if val1 ≠ none ∧ val2 = none then (val1, source1)
  else if val2 ≠ none ∧ val1 = none then (val2, source2)
  else (val1, source1)

/-- `_pick_best_value` default branch for a plain string field
(department, tribunal, ...): prelude then source 1. -/
def pick_best_value_str_default (val1 val2 source1 source2 : String) :
    Option String × String :=
  if val1 = "" ∧ val2 = "" then (none, "")
  else if val1 ≠ "" ∧ val2 = "" then (some val1, source1)
  else if val2 ≠ "" ∧ val1 = "" then (some val2, source2)
  else (some val1, source1)

/-! ## cross_validator.py: entity matcher -/

/-- One signal block of `_match_auctions`: when the signal is available
its weight joins the denominator accumulator, and when additionally
satisfied it joins the score accumulator. -/
def match_signal (sw : ℚ × ℚ) (avail : Prop) [Decidable avail]
    (sat : Prop) [Decidable sat] (w : ℚ) : ℚ × ℚ :=
  if avail then (sw.1 + (if sat then w else 0), sw.2 + w) else sw

/-- `CrossValidator._match_auctions` (`cross_validator.py` lines 120-169):
six weighted signals accumulated in order (sale date 0.30, tribunal 0.15,
price 0.20, city 0.15, property type 0.10, surface 0.10), final score =
score/weights (0 when no weight).  `PropertyType` enum members are always
truthy in Python, so the type signal is always available. -/
def match_auctions (ratio : String → String → ℚ) (a1 a2 : Auction) : ℚ :=
  let sw : ℚ × ℚ := (0, 0)
  let sw := match_signal sw (a1.date_vente ≠ none ∧ a2.date_vente ≠ none)
    (a1.date_vente = a2.date_vente) (0.3 : ℚ)
  let sw := match_signal sw (a1.tribunal ≠ "" ∧ a2.tribunal ≠ "")
    ((0.7 : ℚ) < similarity ratio a1.tribunal a2.tribunal) (0.15 : ℚ)
  let sw := match_signal sw
    (truthyN 0 a1.mise_a_prix ∧ truthyN 0 a2.mise_a_prix)
    (|a1.mise_a_prix.getD 0 - a2.mise_a_prix.getD 0| /
      ((a1.mise_a_prix.getD 0 + a2.mise_a_prix.getD 0) / 2) < (0.1 : ℚ))
    (0.2 : ℚ)
  let sw := match_signal sw (a1.ville ≠ "" ∧ a2.ville ≠ "")
    ((0.8 : ℚ) < similarity ratio a1.ville a2.ville) (0.15 : ℚ)
  let sw := match_signal sw True (a1.type_bien = a2.type_bien) (0.1 : ℚ)
  let sw := match_signal sw (truthyN 0 a1.surface ∧ truthyN 0 a2.surface)
    (|a1.surface.getD 0 - a2.surface.getD 0| /
      ((a1.surface.getD 0 + a2.surface.getD 0) / 2) < (0.05 : ℚ))
    (0.1 : ℚ)
  if 0 < sw.2 then sw.1 / sw.2 else 0

/-- Sum of the weights of the signals available (in the Python-truthiness
sense) between two auctions — the matcher's denominator as the
(amended) claim describes it. -/
def match_avail_weight (a1 a2 : Auction) : ℚ :=
  (if a1.date_vente ≠ none ∧ a2.date_vente ≠ none then (0.3 : ℚ) else 0)
  + (if a1.tribunal ≠ "" ∧ a2.tribunal ≠ "" then (0.15 : ℚ) else 0)
  + (if truthyN 0 a1.mise_a_prix ∧ truthyN 0 a2.mise_a_prix then (0.2 : ℚ)
     else 0)
  + (if a1.ville ≠ "" ∧ a2.ville ≠ "" then (0.15 : ℚ) else 0)
  + (0.1 : ℚ)
  + (if truthyN 0 a1.surface ∧ truthyN 0 a2.surface then (0.1 : ℚ) else 0)

/-- Sum of the weights of the available AND satisfied signals — the
matcher's numerator as the (amended) claim describes it. -/
def match_sat_weight (ratio : String → String → ℚ) (a1 a2 : Auction) : ℚ :=
  (if (a1.date_vente ≠ none ∧ a2.date_vente ≠ none) ∧
      a1.date_vente = a2.date_vente then (0.3 : ℚ) else 0)
  + (if (a1.tribunal ≠ "" ∧ a2.tribunal ≠ "") ∧
      (0.7 : ℚ) < similarity ratio a1.tribunal a2.tribunal then (0.15 : ℚ)
     else 0)
  + (if (truthyN 0 a1.mise_a_prix ∧ truthyN 0 a2.mise_a_prix) ∧
      |a1.mise_a_prix.getD 0 - a2.mise_a_prix.getD 0| /
        ((a1.mise_a_prix.getD 0 + a2.mise_a_prix.getD 0) / 2) < (0.1 : ℚ)
     then (0.2 : ℚ) else 0)
  + (if (a1.ville ≠ "" ∧ a2.ville ≠ "") ∧
      (0.8 : ℚ) < similarity ratio a1.ville a2.ville then (0.15 : ℚ) else 0)
  + (if a1.type_bien = a2.type_bien then (0.1 : ℚ) else 0)
  + (if (truthyN 0 a1.surface ∧ truthyN 0 a2.surface) ∧
      |a1.surface.getD 0 - a2.surface.getD 0| /
        ((a1.surface.getD 0 + a2.surface.getD 0) / 2) < (0.05 : ℚ)
     then (0.1 : ℚ) else 0)

/-- The match score exactly as the original claim words availability:
a signal is available iff BOTH sides are non-null (`None`/empty-string),
so a present-but-zero price or surface still counts as available.  Used to
refute the claim as stated. -/
def match_avail_weight_nonnull (a1 a2 : Auction) : ℚ :=
  (if a1.date_vente ≠ none ∧ a2.date_vente ≠ none then (0.3 : ℚ) else 0)
  + (if a1.tribunal ≠ "" ∧ a2.tribunal ≠ "" then (0.15 : ℚ) else 0)
  + (if a1.mise_a_prix ≠ none ∧ a2.mise_a_prix ≠ none then (0.2 : ℚ) else 0)
  + (if a1.ville ≠ "" ∧ a2.ville ≠ "" then (0.15 : ℚ) else 0)
  + (0.1 : ℚ)
  + (if a1.surface ≠ none ∧ a2.surface ≠ none then (0.1 : ℚ) else 0)

/-- Numerator of the claim-as-written score (non-null availability). -/
def match_sat_weight_nonnull (ratio : String → String → ℚ)
    (a1 a2 : Auction) : ℚ :=
  (if (a1.date_vente ≠ none ∧ a2.date_vente ≠ none) ∧
      a1.date_vente = a2.date_vente then (0.3 : ℚ) else 0)
  + (if (a1.tribunal ≠ "" ∧ a2.tribunal ≠ "") ∧
      (0.7 : ℚ) < similarity ratio a1.tribunal a2.tribunal then (0.15 : ℚ)
     else 0)
  + (if (a1.mise_a_prix ≠ none ∧ a2.mise_a_prix ≠ none) ∧
      |a1.mise_a_prix.getD 0 - a2.mise_a_prix.getD 0| /
        ((a1.mise_a_prix.getD 0 + a2.mise_a_prix.getD 0) / 2) < (0.1 : ℚ)
     then (0.2 : ℚ) else 0)
  + (if (a1.ville ≠ "" ∧ a2.ville ≠ "") ∧
      (0.8 : ℚ) < similarity ratio a1.ville a2.ville then (0.15 : ℚ) else 0)
  + (if a1.type_bien = a2.type_bien then (0.1 : ℚ) else 0)
  + (if (a1.surface ≠ none ∧ a2.surface ≠ none) ∧
      |a1.surface.getD 0 - a2.surface.getD 0| /
        ((a1.surface.getD 0 + a2.surface.getD 0) / 2) < (0.05 : ℚ)
     then (0.1 : ℚ) else 0)

/-- The claim-as-written match score with non-null availability. -/
def spec_match_score_nonnull (ratio : String → String → ℚ)
    (a1 a2 : Auction) : ℚ :=
  if match_avail_weight_nonnull a1 a2 = 0 then 0
  else match_sat_weight_nonnull ratio a1 a2 / match_avail_weight_nonnull a1 a2

/-- Counterexample auction A: sale date present, starting price present
but equal to 0.0 (non-null). -/
def cex_auction_a : Auction := { date_vente := some 0, mise_a_prix := some 0 }

/-- Counterexample auction B: same sale date, a normal starting price. -/
def cex_auction_b : Auction :=
  { date_vente := some 0, mise_a_prix := some 100000 }

/-! ## cross_validator.py: geo-enrichment, merge and pipeline -/

/-- Python `str.title()` (ASCII letters): uppercase a letter that follows
a non-letter, lowercase the rest. -/
def py_title_aux : Bool → List Char → List Char
  | _, [] => []
  | prevAlpha, c :: cs =>
    if c.isAlpha then
      (if prevAlpha then c.toLower else c.toUpper) :: py_title_aux true cs
    else c :: py_title_aux false cs

/-- Python `str.title()`. -/
def py_title (s : String) : String := String.mk (py_title_aux false s.toList)

/-- Python `f"{d:02d}"` for a natural number. -/
def pad2 (n : ℕ) : String := if n < 10 then "0" ++ toString n else toString n

/-- `int(...)` on a non-empty ASCII digit string. -/
def digits_to_nat (l : List Char) : ℕ :=
  l.foldl (fun acc c => acc * 10 + (c.toNat - 48)) 0

/-- `re.match(r"marseille\s*(\d+)", city_norm)` of `_enrich_from_postal`
(line 272): the city name starts with `marseille`, then optional
whitespace, then at least one digit; returns the parsed district. -/
def marseille_district (city_norm : String) : Option ℕ :=
  if city_norm.startsWith "marseille" then
    let rest := (city_norm.drop 9).toList
    let digits := (rest.dropWhile py_is_space).takeWhile (fun c => c.isDigit)
    if digits = [] then none else some (digits_to_nat digits)
  else none

/-- `CrossValidator._enrich_from_postal` (`cross_validator.py` lines
253-298): four sequential correction/inference steps on the record,
returning the updated record together with the list of change
descriptions the Python method returns.  (Python renders the corrected
city note with quotes around the values; the quotes are omitted here.) -/
def enrich_from_postal (ratio : String → String → ℚ) (a : Auction) :
    Auction × List String :=
  -- step 1: postal code present but city absent → infer city
  let step1 : Auction × List String :=
    if a.code_postal ≠ "" ∧ a.ville = "" then
      match cities_by_postal_get a.code_postal with
      | some city =>
        ({ a with ville := py_title city },
         ["ville inferred from postal code: " ++ py_title city])
      | none => (a, [])
    else (a, [])
  let a1 := step1.1
  -- step 2: city present but postal code absent → infer postal code
  let step2 : Auction × List String :=
    if a1.ville ≠ "" ∧ a1.code_postal = "" then
      let city_norm := normalize_text a1.ville
      match marseille_district city_norm with
      | some district =>
        ({ a1 with code_postal := "130" ++ pad2 district },
         ["postal code inferred from Marseille district: " ++
           ("130" ++ pad2 district)])
      | none =>
        match postal_codes_get city_norm with
        | some cp =>
          ({ a1 with code_postal := cp },
           ["postal code inferred from city: " ++ cp])
        | none => (a1, [])
    else (a1, [])
  let a2 := step2.1
  -- step 3: both present → trust the postal code when the city disagrees
  let step3 : Auction × List String :=
    if a2.code_postal ≠ "" ∧ a2.ville ≠ "" then
      match cities_by_postal_get a2.code_postal with
      | some expected_city =>
        let ville_norm := normalize_text a2.ville
        let expected_norm := normalize_text expected_city
        if ville_norm ≠ expected_norm ∧
            similarity ratio ville_norm expected_norm < (0.6 : ℚ) then
          ({ a2 with ville := py_title expected_city },
           ["ville corrected from " ++ a2.ville ++ " to " ++
             py_title expected_city ++ " (based on postal code " ++
             a2.code_postal ++ ")"])
        else (a2, [])
      | none => (a2, [])
    else (a2, [])
  let a3 := step3.1
  -- step 4: department from the postal-code prefix
  let step4 : Auction × List String :=
    if a3.code_postal ≠ "" ∧ a3.department = "" then
      ({ a3 with department := a3.code_postal.take 2 },
       ["department inferred: " ++ a3.code_postal.take 2])
    else (a3, [])
  (step4.1, step1.2 ++ step2.2 ++ step3.2 ++ step4.2)

/-- `ValidationResult` dataclass from `cross_validator.py` lines 15-22
(`fields_from_source` as an association list). -/
structure ValidationResult where
  merged_auction : Auction
  sources_matched : List String
  fields_from_source : List (String × String)
  confidence : ℚ
  validation_notes : List String

/-- The merge note recorded when both sides are truthy and disagree
(line 343; the Python f-string also interpolates the two values — the
note here keeps the field and winning source only). -/
def merge_note (field source : String) : String :=
  field ++ ": picked value from " ++ source

/-- `CrossValidator.merge_auctions` (`cross_validator.py` lines 300-372)
over the modelled fields, in the `fields_to_merge` order restricted to
them: adresse, code_postal, ville, department, type_bien, surface,
nb_pieces, mise_a_prix, date_vente, tribunal.  After field selection the
merged record passes through `_enrich_from_postal`, whose change notes
are appended to the validation notes; the merge confidence is
agreement-count over populated-field count (0.5 when nothing is
populated). -/
def merge_auctions (ratio : String → String → ℚ) (a1 a2 : Auction) :
    ValidationResult :=
  let source1 := if a1.source ≠ "" then a1.source else "source1"
  let source2 := if a2.source ≠ "" then a2.source else "source2"
  let p_adresse := pick_best_value_text a1.adresse a2.adresse source1 source2
  let p_code_postal :=
    pick_best_value_postal a1.code_postal a2.code_postal source1 source2
  let p_ville := pick_best_value_ville a1.ville a2.ville source1 source2
  let p_department :=
    pick_best_value_str_default a1.department a2.department source1 source2
  -- type_bien: enum members are always truthy, so `_pick_best_value`
  -- reaches the default branch and source 1 wins
  let p_type : PropertyType × String := (a1.type_bien, source1)
  let p_surface :=
    pick_best_value_numeric (0 : ℚ) a1.surface a2.surface source1 source2
  let p_nb_pieces :=
    pick_best_value_numeric (0 : ℤ) a1.nb_pieces a2.nb_pieces source1 source2
  let p_mise := pick_best_value_numeric (0 : ℚ) a1.mise_a_prix a2.mise_a_prix
    source1 source2
  let p_date := pick_best_value_date a1.date_vente a2.date_vente
    source1 source2
  let p_tribunal :=
    pick_best_value_str_default a1.tribunal a2.tribunal source1 source2
  let merged : Auction := {
    source := source1 ++ "+" ++ source2,
    adresse := p_adresse.1.getD "",
    code_postal := p_code_postal.1.getD "",
    ville := p_ville.1.getD "",
    department := p_department.1.getD "",
    type_bien := p_type.1,
    surface := p_surface.1,
    nb_pieces := p_nb_pieces.1,
    mise_a_prix := p_mise.1,
    date_vente := p_date.1,
    tribunal := p_tribunal.1.getD "" }
  let fields_from : List (String × String) :=
    (if p_adresse.1 ≠ none ∧ p_adresse.2 ≠ "" then [("adresse", p_adresse.2)]
     else []) ++
    (if p_code_postal.1 ≠ none ∧ p_code_postal.2 ≠ "" then
      [("code_postal", p_code_postal.2)] else []) ++
    (if p_ville.1 ≠ none ∧ p_ville.2 ≠ "" then [("ville", p_ville.2)]
     else []) ++
    (if p_department.1 ≠ none ∧ p_department.2 ≠ "" then
      [("department", p_department.2)] else []) ++
    [("type_bien", p_type.2)] ++
    (if p_surface.1 ≠ none ∧ p_surface.2 ≠ "" then [("surface", p_surface.2)]
     else []) ++
    (if p_nb_pieces.1 ≠ none ∧ p_nb_pieces.2 ≠ "" then
      [("nb_pieces", p_nb_pieces.2)] else []) ++
    (if p_mise.1 ≠ none ∧ p_mise.2 ≠ "" then [("mise_a_prix", p_mise.2)]
     else []) ++
    (if p_date.1 ≠ none ∧ p_date.2 ≠ "" then [("date_vente", p_date.2)]
     else []) ++
    (if p_tribunal.1 ≠ none ∧ p_tribunal.2 ≠ "" then
      [("tribunal", p_tribunal.2)] else [])
  let notes : List String :=
    (if a1.adresse ≠ a2.adresse ∧ a1.adresse ≠ "" ∧ a2.adresse ≠ "" then
      [merge_note "adresse" p_adresse.2] else []) ++
    (if a1.code_postal ≠ a2.code_postal ∧ a1.code_postal ≠ "" ∧
        a2.code_postal ≠ "" then [merge_note "code_postal" p_code_postal.2]
     else []) ++
    (if a1.ville ≠ a2.ville ∧ a1.ville ≠ "" ∧ a2.ville ≠ "" then
      [merge_note "ville" p_ville.2] else []) ++
    (if a1.department ≠ a2.department ∧ a1.department ≠ "" ∧
        a2.department ≠ "" then [merge_note "department" p_department.2]
     else []) ++
    (if a1.type_bien ≠ a2.type_bien then [merge_note "type_bien" p_type.2]
     else []) ++
    (if a1.surface ≠ a2.surface ∧ truthyN 0 a1.surface ∧
        truthyN 0 a2.surface then [merge_note "surface" p_surface.2]
     else []) ++
    (if a1.nb_pieces ≠ a2.nb_pieces ∧ truthyN 0 a1.nb_pieces ∧
        truthyN 0 a2.nb_pieces then [merge_note "nb_pieces" p_nb_pieces.2]
     else []) ++
    (if a1.mise_a_prix ≠ a2.mise_a_prix ∧ truthyN 0 a1.mise_a_prix ∧
        truthyN 0 a2.mise_a_prix then [merge_note "mise_a_prix" p_mise.2]
     else []) ++
    (if a1.date_vente ≠ a2.date_vente ∧ a1.date_vente ≠ none ∧
        a2.date_vente ≠ none then [merge_note "date_vente" p_date.2]
     else []) ++
    (if a1.tribunal ≠ a2.tribunal ∧ a1.tribunal ≠ "" ∧ a2.tribunal ≠ ""
     then [merge_note "tribunal" p_tribunal.2] else [])
  let enr := enrich_from_postal ratio merged
  let agreement_count : ℕ :=
    (if a1.adresse ≠ "" ∧ a2.adresse ≠ "" ∧ a1.adresse = a2.adresse then 1
     else 0) +
    (if a1.code_postal ≠ "" ∧ a2.code_postal ≠ "" ∧
        a1.code_postal = a2.code_postal then 1 else 0) +
    (if a1.ville ≠ "" ∧ a2.ville ≠ "" ∧ a1.ville = a2.ville then 1 else 0) +
    (if a1.department ≠ "" ∧ a2.department ≠ "" ∧
        a1.department = a2.department then 1 else 0) +
    (if a1.type_bien = a2.type_bien then 1 else 0) +
    (if truthyN 0 a1.surface ∧ truthyN 0 a2.surface ∧ a1.surface = a2.surface
     then 1 else 0) +
    (if truthyN 0 a1.nb_pieces ∧ truthyN 0 a2.nb_pieces ∧
        a1.nb_pieces = a2.nb_pieces then 1 else 0) +
    (if truthyN 0 a1.mise_a_prix ∧ truthyN 0 a2.mise_a_prix ∧
        a1.mise_a_prix = a2.mise_a_prix then 1 else 0) +
    (if a1.date_vente ≠ none ∧ a2.date_vente ≠ none ∧
        a1.date_vente = a2.date_vente then 1 else 0) +
    (if a1.tribunal ≠ "" ∧ a2.tribunal ≠ "" ∧ a1.tribunal = a2.tribunal
     then 1 else 0)
  let total_fields : ℕ :=
    (if enr.1.adresse ≠ "" then 1 else 0) +
    (if enr.1.code_postal ≠ "" then 1 else 0) +
    (if enr.1.ville ≠ "" then 1 else 0) +
    (if enr.1.department ≠ "" then 1 else 0) +
    1 +
    (if truthyN 0 enr.1.surface then 1 else 0) +
    (if truthyN 0 enr.1.nb_pieces then 1 else 0) +
    (if truthyN 0 enr.1.mise_a_prix then 1 else 0) +
    (if enr.1.date_vente ≠ none then 1 else 0) +
    (if enr.1.tribunal ≠ "" then 1 else 0)
  { merged_auction := enr.1,
    sources_matched := [source1, source2],
    fields_from_source := fields_from,
    confidence := if 0 < total_fields then
        (agreement_count : ℚ) / (total_fields : ℚ)
      else (0.5 : ℚ),
    validation_notes := notes ++ enr.2 }

/-- The inner loop of `CrossValidator.find_matches` (lines 388-401): best
still-unused index of the second batch whose score strictly improves the
running best and clears the threshold. -/
def find_best (ratio : String → String → ℚ) (a1 : Auction)
    (l2 : List Auction) (threshold : ℚ) (used : List ℕ) : Option ℕ × ℚ :=
  l2.enum.foldl (fun best p =>
    if p.1 ∈ used then best
    else
      let score := match_auctions ratio a1 p.2
      if best.2 < score ∧ threshold ≤ score then (some p.1, score) else best)
    (none, 0)

/-- `CrossValidator.find_matches` (lines 374-409): greedy one-to-one
assignment; matches are (index in batch 1, index in batch 2, score).  The
Python `used_indices`/`id()`-based bookkeeping is modelled by list
indices (records of a scraped batch are distinct objects). -/
def find_matches (ratio : String → String → ℚ) (l1 l2 : List Auction)
    (threshold : ℚ) : List (ℕ × ℕ × ℚ) :=
  (l1.enum.foldl (fun st p =>
    let best := find_best ratio p.2 l2 threshold st.2
    match best.1 with
    | some idx => (st.1 ++ [(p.1, idx, best.2)], st.2 ++ [idx])
    | none => st) (([] : List (ℕ × ℕ × ℚ)), ([] : List ℕ))).1

/-- `CrossValidator.validate_and_merge_all` (lines 411-462): merge each
matched pair, then append the unmatched records of either batch after
passing them through `_enrich_from_postal`.  Only the merged/enriched
`Auction` records are returned; the `ValidationResult` notes are dropped
and the change lists of the unmatched records' enrichment are discarded. -/
def validate_and_merge_all (ratio : String → String → ℚ)
    (l1 l2 : List Auction) (threshold : ℚ) : List Auction :=
  let found := find_matches ratio l1 l2 threshold
  let merged := found.map (fun m =>
    (merge_auctions ratio (l1.getD m.1 {}) (l2.getD m.2.1 {})).merged_auction)
  let matched1 := found.map (fun m => m.1)
  let matched2 := found.map (fun m => m.2.1)
  let un1 := (l1.enum.filter (fun p => decide (p.1 ∉ matched1))).map
    (fun p => (enrich_from_postal ratio p.2).1)
  let un2 := (l2.enum.filter (fun p => decide (p.1 ∉ matched2))).map
    (fun p => (enrich_from_postal ratio p.2).1)
  merged ++ un1 ++ un2

/-- Concrete unmatched record for the pipeline: postal code and city are
consistent, the department is missing and gets inferred. -/
def unmatched_auction : Auction :=
  { source := "encheres_publiques", code_postal := "93100",
    ville := "Montreuil" }

/-! ## Theorems -/

theorem level_chain_spec (s : ℚ) (n : ℕ) :
    ((if 70 ≤ s ∧ 2 ≤ n then ReliabilityLevel.high
      else if 40 ≤ s then .medium else if 0 < s then .low
      else .insufficient) = .high ↔ 70 ≤ s ∧ 2 ≤ n) ∧
    ((if 70 ≤ s ∧ 2 ≤ n then ReliabilityLevel.high
      else if 40 ≤ s then .medium else if 0 < s then .low
      else .insufficient) = .medium ↔ ¬(70 ≤ s ∧ 2 ≤ n) ∧ 40 ≤ s) ∧
    ((if 70 ≤ s ∧ 2 ≤ n then ReliabilityLevel.high
      else if 40 ≤ s then .medium else if 0 < s then .low
      else .insufficient) = .low ↔ ¬(70 ≤ s ∧ 2 ≤ n) ∧ ¬(40 ≤ s) ∧ 0 < s) ∧
    ((if 70 ≤ s ∧ 2 ≤ n then ReliabilityLevel.high
      else if 40 ≤ s then .medium else if 0 < s then .low
      else .insufficient) = .insufficient ↔
      ¬(70 ≤ s ∧ 2 ≤ n) ∧ ¬(40 ≤ s) ∧ ¬(0 < s)) := by
  split_ifs with h1 h2 h3 <;> refine ⟨?_, ?_, ?_, ?_⟩ <;> simp_all

theorem calculate_reliability_levelInv (sqrtQ : ℚ → ℚ)
    (m : MultiSourceEstimate) :
    ReliabilityLevelInv (calculate_reliability sqrtQ m) := by
  by_cases h : m.estimates = []
  · simp only [calculate_reliability, if_pos h, ReliabilityLevelInv]
    refine ⟨?_, ?_, ?_, ?_⟩ <;> norm_num [h] <;> decide
  · simp only [calculate_reliability, if_neg h, ReliabilityLevelInv]
    exact level_chain_spec _ _

theorem filter_append_truthy_ne_nil (l : List PriceEstimate)
    (e : PriceEstimate) (ht : truthy_prix e.prix_m2 = true) :
    (l ++ [e]).filter (fun x => truthy_prix x.prix_m2) ≠ [] := by
  intro hcontra
  rw [List.filter_append] at hcontra
  rcases List.append_eq_nil.mp hcontra with ⟨-, h2⟩
  simp [List.filter_cons, ht] at h2

theorem recalculate_levelInv (sqrtQ : ℚ → ℚ) (m : MultiSourceEstimate)
    (h : m.estimates.filter (fun e => truthy_prix e.prix_m2) ≠ []) :
    ReliabilityLevelInv (recalculate sqrtQ m) := by
  unfold recalculate
  rw [if_neg h]
  exact calculate_reliability_levelInv sqrtQ _

theorem add_estimate_levelInv (sqrtQ : ℚ → ℚ) (m : MultiSourceEstimate)
    (e : PriceEstimate) (hm : ReliabilityLevelInv m) :
    ReliabilityLevelInv (add_estimate sqrtQ m e) := by
  unfold add_estimate
  split_ifs with ht
  · exact recalculate_levelInv sqrtQ _ (filter_append_truthy_ne_nil _ _ ht)
  · exact hm

theorem foldl_add_estimate_levelInv (sqrtQ : ℚ → ℚ)
    (l : List PriceEstimate) (m : MultiSourceEstimate)
    (hm : ReliabilityLevelInv m) :
    ReliabilityLevelInv (l.foldl (add_estimate sqrtQ) m) := by
  induction l generalizing m with
  | nil => exact hm
  | cons e t ih => exact ih _ (add_estimate_levelInv sqrtQ m e hm)

/-- Claim C1: after any sequence of `add_estimate` calls, the reliability
level is `high` iff the reliability score is ≥ 70 and the number of
accumulated estimates is ≥ 2; otherwise `medium` iff the score is ≥ 40;
otherwise `low` iff the score is > 0; otherwise `insufficient`.  In
particular a single accumulated estimate never yields `high`. -/
theorem reliability_level_spec (sqrtQ : ℚ → ℚ) (l : List PriceEstimate) :
    ReliabilityLevelInv (run_estimates sqrtQ l) ∧
    ((run_estimates sqrtQ l).estimates.length = 1 →
      (run_estimates sqrtQ l).reliability ≠ .high) := by
  have hinit : ReliabilityLevelInv MultiSourceEstimate.init := by
    unfold ReliabilityLevelInv MultiSourceEstimate.init
    refine ⟨?_, ?_, ?_, ?_⟩ <;> norm_num <;> decide
  have hinv : ReliabilityLevelInv (run_estimates sqrtQ l) :=
    foldl_add_estimate_levelInv sqrtQ l _ hinit
  refine ⟨hinv, fun h1 hhigh => ?_⟩
  have h2 := (hinv.1.mp hhigh).2
  omega

/-- Witness for C1: a single accumulated estimate of confidence 90 gives a
reliability score of 70 (clearing the `high` numeric threshold) yet the
level is not `high` (it is `medium`), because only one source contributed. -/
theorem reliability_level_spec_witness :
    (run_estimates (fun _ => 0) [high_conf_estimate]).estimates.length = 1 ∧
    70 ≤ (run_estimates (fun _ => 0) [high_conf_estimate]).reliability_score ∧
    (run_estimates (fun _ => 0) [high_conf_estimate]).reliability ≠ .high ∧
    (run_estimates (fun _ => 0) [high_conf_estimate]).reliability = .medium :=
  ⟨by norm_num +decide [run_estimates, add_estimate, truthy_prix, recalculate,
      calculate_reliability, confidence_score, high_conf_estimate,
      MultiSourceEstimate.init, pm2, list_min, list_max, breakdown_step],
   by norm_num +decide [run_estimates, add_estimate, truthy_prix, recalculate,
      calculate_reliability, confidence_score, high_conf_estimate,
      MultiSourceEstimate.init, pm2, list_min, list_max, breakdown_step],
   (reliability_level_spec (fun _ => 0) [high_conf_estimate]).2
     (by norm_num +decide [run_estimates, add_estimate, truthy_prix, recalculate,
        calculate_reliability, confidence_score, high_conf_estimate,
        MultiSourceEstimate.init, pm2, list_min, list_max, breakdown_step]),
   by norm_num +decide [run_estimates, add_estimate, truthy_prix, recalculate,
      calculate_reliability, confidence_score, high_conf_estimate,
      MultiSourceEstimate.init, pm2, list_min, list_max, breakdown_step]⟩

/-- Claim C6: the confidence score is always within [0,100], is monotone
non-decreasing in the sample count (for fixed age and precision), monotone
non-decreasing as the data gets more recent (for fixed count and
precision), and ranks `exact` ≥ `commune` ≥ `department` (for fixed count
and age). -/
theorem confidence_score_bounds_and_monotone :
    (∀ e : PriceEstimate, 0 ≤ confidence_score e ∧ confidence_score e ≤ 100) ∧
    (∀ e₁ e₂ : PriceEstimate, e₁.date_range_days = e₂.date_range_days →
      e₁.geographic_match = e₂.geographic_match →
      e₁.nb_data_points ≤ e₂.nb_data_points →
      confidence_score e₁ ≤ confidence_score e₂) ∧
    (∀ e₁ e₂ : PriceEstimate, e₁.nb_data_points = e₂.nb_data_points →
      e₁.geographic_match = e₂.geographic_match →
      e₂.date_range_days ≤ e₁.date_range_days →
      confidence_score e₁ ≤ confidence_score e₂) ∧
    (∀ e₁ e₂ : PriceEstimate, e₁.nb_data_points = e₂.nb_data_points →
      e₁.date_range_days = e₂.date_range_days →
      e₁.geographic_match = "commune" → e₂.geographic_match = "exact" →
      confidence_score e₁ ≤ confidence_score e₂) ∧
    (∀ e₁ e₂ : PriceEstimate, e₁.nb_data_points = e₂.nb_data_points →
      e₁.date_range_days = e₂.date_range_days →
      e₁.geographic_match = "department" → e₂.geographic_match = "commune" →
      confidence_score e₁ ≤ confidence_score e₂) := by
  refine ⟨fun e => ⟨?_, ?_⟩, ?_, ?_, ?_, ?_⟩
  · unfold confidence_score
    split_ifs <;> norm_num
  · unfold confidence_score
    split_ifs <;> norm_num
  · intro e₁ e₂ hd hg hn
    unfold confidence_score
    rw [hd, hg]
    have hA : (if 20 ≤ e₁.nb_data_points then (40:ℚ)
        else if 10 ≤ e₁.nb_data_points then 30
        else if 5 ≤ e₁.nb_data_points then 20
        else if 3 ≤ e₁.nb_data_points then 10 else 0) ≤
        (if 20 ≤ e₂.nb_data_points then (40:ℚ)
        else if 10 ≤ e₂.nb_data_points then 30
        else if 5 ≤ e₂.nb_data_points then 20
        else if 3 ≤ e₂.nb_data_points then 10 else 0) := by
      split_ifs <;> first | (exfalso; omega) | norm_num
    exact add_le_add (add_le_add hA le_rfl) le_rfl
  · intro e₁ e₂ hn hg hd
    unfold confidence_score
    rw [hn, hg]
    have hB : (if e₁.date_range_days ≤ 180 then (30:ℚ)
        else if e₁.date_range_days ≤ 365 then 20
        else if e₁.date_range_days ≤ 730 then 10 else 0) ≤
        (if e₂.date_range_days ≤ 180 then (30:ℚ)
        else if e₂.date_range_days ≤ 365 then 20
        else if e₂.date_range_days ≤ 730 then 10 else 0) := by
      split_ifs <;> first | (exfalso; omega) | norm_num
    exact add_le_add (add_le_add le_rfl hB) le_rfl
  · intro e₁ e₂ hn hd hg1 hg2
    unfold confidence_score
    rw [hn, hd, hg1, hg2]
    have hC : (if ("commune" : String) = "exact" then (30:ℚ)
        else if ("commune" : String) = "commune" then 20
        else if ("commune" : String) = "department" then 10 else 0) ≤
        (if ("exact" : String) = "exact" then (30:ℚ)
        else if ("exact" : String) = "commune" then 20
        else if ("exact" : String) = "department" then 10 else 0) := by
      norm_num +decide
    exact add_le_add le_rfl hC
  · intro e₁ e₂ hn hd hg1 hg2
    unfold confidence_score
    rw [hn, hd, hg1, hg2]
    have hC : (if ("department" : String) = "exact" then (30:ℚ)
        else if ("department" : String) = "commune" then 20
        else if ("department" : String) = "department" then 10 else 0) ≤
        (if ("commune" : String) = "exact" then (30:ℚ)
        else if ("commune" : String) = "commune" then 20
        else if ("commune" : String) = "department" then 10 else 0) := by
      norm_num +decide
    exact add_le_add le_rfl hC

/-- Witness for C6: the monotonicity-in-sample-count part evaluated at a
concrete pair of estimates (4 vs 12 data points, all else equal). -/
theorem confidence_score_monotone_witness :
    sample_estimate_a.date_range_days = sample_estimate_b.date_range_days ∧
    sample_estimate_a.geographic_match = sample_estimate_b.geographic_match ∧
    sample_estimate_a.nb_data_points ≤ sample_estimate_b.nb_data_points ∧
    confidence_score sample_estimate_a ≤ confidence_score sample_estimate_b :=
  ⟨by decide, by decide, by decide,
    confidence_score_bounds_and_monotone.2.1 sample_estimate_a
      sample_estimate_b (by decide) (by decide) (by decide)⟩

theorem confidence_score_nonneg (e : PriceEstimate) :
    0 ≤ confidence_score e := by
  unfold confidence_score
  split_ifs <;> norm_num

theorem sum_conf_pos_of_not_all_zero (l : List PriceEstimate)
    (h : ¬(∀ e ∈ l, confidence_score e = 0)) :
    0 < (l.map confidence_score).sum := by
  push_neg at h
  obtain ⟨e, he, hne⟩ := h
  have h1 : 0 < confidence_score e :=
    lt_of_le_of_ne (confidence_score_nonneg e) (Ne.symm hne)
  have h2 : confidence_score e ≤ (l.map confidence_score).sum :=
    List.single_le_sum (fun x hx => by
      obtain ⟨y, -, rfl⟩ := List.mem_map.mp hx
      exact confidence_score_nonneg y) _ (List.mem_map_of_mem _ he)
  linarith

theorem sum_conf_zero_of_all_zero (l : List PriceEstimate)
    (h : ∀ e ∈ l, confidence_score e = 0) :
    (l.map confidence_score).sum = 0 :=
  List.sum_eq_zero (fun x hx => by
    obtain ⟨y, hy, rfl⟩ := List.mem_map.mp hx
    exact h y hy)

theorem calculate_reliability_preserves (sqrtQ : ℚ → ℚ)
    (m : MultiSourceEstimate) :
    (calculate_reliability sqrtQ m).estimates = m.estimates ∧
    (calculate_reliability sqrtQ m).prix_m2_combined = m.prix_m2_combined ∧
    (calculate_reliability sqrtQ m).prix_m2_min = m.prix_m2_min ∧
    (calculate_reliability sqrtQ m).prix_m2_max = m.prix_m2_max := by
  unfold calculate_reliability
  split_ifs <;> exact ⟨rfl, rfl, rfl, rfl⟩

theorem breakdown_step_preserves (acc : MultiSourceEstimate)
    (e : PriceEstimate) :
    (breakdown_step acc e).estimates = acc.estimates ∧
    (breakdown_step acc e).prix_m2_combined = acc.prix_m2_combined ∧
    (breakdown_step acc e).prix_m2_min = acc.prix_m2_min ∧
    (breakdown_step acc e).prix_m2_max = acc.prix_m2_max := by
  unfold breakdown_step
  cases e.source_type <;> exact ⟨rfl, rfl, rfl, rfl⟩

theorem foldl_breakdown_preserves (l : List PriceEstimate)
    (acc : MultiSourceEstimate) :
    (l.foldl breakdown_step acc).estimates = acc.estimates ∧
    (l.foldl breakdown_step acc).prix_m2_combined = acc.prix_m2_combined ∧
    (l.foldl breakdown_step acc).prix_m2_min = acc.prix_m2_min ∧
    (l.foldl breakdown_step acc).prix_m2_max = acc.prix_m2_max := by
  induction l generalizing acc with
  | nil => exact ⟨rfl, rfl, rfl, rfl⟩
  | cons e t ih =>
    obtain ⟨a1, a2, a3, a4⟩ := breakdown_step_preserves acc e
    obtain ⟨b1, b2, b3, b4⟩ := ih (breakdown_step acc e)
    exact ⟨b1.trans a1, b2.trans a2, b3.trans a3, b4.trans a4⟩

theorem zip_map_mul (l : List PriceEstimate) :
    ((l.map pm2).zip (l.map confidence_score)).map (fun pw => pw.1 * pw.2) =
      l.map (fun e => pm2 e * confidence_score e) := by
  rw [List.zip_map', List.map_map]
  rfl

theorem recalculate_fields (sqrtQ : ℚ → ℚ) (m : MultiSourceEstimate)
    (hall : ∀ e ∈ m.estimates, truthy_prix e.prix_m2 = true)
    (hne : m.estimates ≠ []) :
    (recalculate sqrtQ m).estimates = m.estimates ∧
    (recalculate sqrtQ m).prix_m2_combined =
      some (weighted_combined m.estimates) ∧
    (recalculate sqrtQ m).prix_m2_min =
      some (list_min (m.estimates.map pm2)) ∧
    (recalculate sqrtQ m).prix_m2_max =
      some (list_max (m.estimates.map pm2)) := by
  have hfilter : m.estimates.filter (fun e => truthy_prix e.prix_m2) =
      m.estimates := List.filter_eq_self.mpr hall
  simp only [recalculate, hfilter, if_neg hne]
  obtain ⟨c1, c2, c3, c4⟩ :=
    calculate_reliability_preserves sqrtQ
      (m.estimates.foldl breakdown_step _)
  obtain ⟨b1, b2, b3, b4⟩ := foldl_breakdown_preserves m.estimates _
  refine ⟨c1.trans b1, (c2.trans b2).trans ?_, (c3.trans b3).trans ?_,
    (c4.trans b4).trans ?_⟩
  · show some _ = some (weighted_combined m.estimates)
    rw [zip_map_mul]
    unfold weighted_combined
    rw [List.length_map]
  · rfl
  · rfl

theorem add_estimate_recalcInv (sqrtQ : ℚ → ℚ) (m : MultiSourceEstimate)
    (e : PriceEstimate) (hm : RecalcInv m) :
    RecalcInv (add_estimate sqrtQ m e) := by
  unfold add_estimate
  split_ifs with ht
  · have hall2 : ∀ x ∈ m.estimates ++ [e], truthy_prix x.prix_m2 = true := by
      intro x hx
      rcases List.mem_append.mp hx with h | h
      · exact hm.1 x h
      · rw [List.mem_singleton.mp h]
        exact ht
    have hne2 : m.estimates ++ [e] ≠ [] := by simp
    obtain ⟨f1, f2, f3, f4⟩ :=
      recalculate_fields sqrtQ { m with estimates := m.estimates ++ [e] }
        hall2 hne2
    refine ⟨?_, fun _ => ⟨?_, ?_, ?_⟩⟩
    · rw [f1]
      exact hall2
    · rw [f1, f2]
    · rw [f1, f3]
    · rw [f1, f4]
  · exact hm

theorem recalcInv_init : RecalcInv MultiSourceEstimate.init :=
  ⟨fun e he => by simp [MultiSourceEstimate.init] at he,
   fun h => absurd rfl h⟩

theorem foldl_add_estimate_recalcInv (sqrtQ : ℚ → ℚ)
    (l : List PriceEstimate) (m : MultiSourceEstimate)
    (hm : RecalcInv m) :
    RecalcInv (l.foldl (add_estimate sqrtQ) m) := by
  induction l generalizing m with
  | nil => exact hm
  | cons e t ih => exact ih _ (add_estimate_recalcInv sqrtQ m e hm)

/-- Claim C2: for every non-empty accumulated estimate list, the combined
price equals the confidence-weighted average Σ(price·confidence)/Σ(confidence)
of the accumulated estimates; when every accumulated estimate has confidence
score 0 it equals the plain arithmetic mean of their prices. -/
theorem combined_price_spec (sqrtQ : ℚ → ℚ) (l : List PriceEstimate)
    (hne : (run_estimates sqrtQ l).estimates ≠ []) :
    (¬(∀ e ∈ (run_estimates sqrtQ l).estimates, confidence_score e = 0) →
      (run_estimates sqrtQ l).prix_m2_combined =
        some (((run_estimates sqrtQ l).estimates.map
            (fun e => pm2 e * confidence_score e)).sum /
          ((run_estimates sqrtQ l).estimates.map confidence_score).sum)) ∧
    ((∀ e ∈ (run_estimates sqrtQ l).estimates, confidence_score e = 0) →
      (run_estimates sqrtQ l).prix_m2_combined =
        some (((run_estimates sqrtQ l).estimates.map pm2).sum /
          (((run_estimates sqrtQ l).estimates.length : ℚ)))) := by
  have hinv : RecalcInv (run_estimates sqrtQ l) :=
    foldl_add_estimate_recalcInv sqrtQ l _ recalcInv_init
  obtain ⟨hcmb, -, -⟩ := hinv.2 hne
  constructor
  · intro hnz
    rw [hcmb]
    unfold weighted_combined
    rw [if_pos (sum_conf_pos_of_not_all_zero _ hnz)]
  · intro hz
    rw [hcmb]
    unfold weighted_combined
    rw [if_neg (by rw [sum_conf_zero_of_all_zero _ hz]; exact lt_irrefl 0)]

/-- Witness for C2: two estimates (price 1000 at confidence 90, price 4000
at confidence 30) combine to (1000·90 + 4000·30)/120 = 1750. -/
theorem combined_price_spec_witness :
    (run_estimates (fun _ => 0) [estimate_w90, estimate_w30]).estimates ≠ [] ∧
    ¬(∀ e ∈ (run_estimates (fun _ => 0)
        [estimate_w90, estimate_w30]).estimates, confidence_score e = 0) ∧
    (run_estimates (fun _ => 0)
      [estimate_w90, estimate_w30]).prix_m2_combined = some 1750 := by
  have hest : (run_estimates (fun _ => 0)
      [estimate_w90, estimate_w30]).estimates =
      [estimate_w90, estimate_w30] := by
    norm_num +decide [run_estimates, add_estimate, truthy_prix, recalculate,
      calculate_reliability, confidence_score, estimate_w90, estimate_w30,
      MultiSourceEstimate.init, pm2, list_min, list_max, breakdown_step]
  have h1 : (run_estimates (fun _ => 0)
      [estimate_w90, estimate_w30]).estimates ≠ [] := by
    rw [hest]
    simp
  have h2 : ¬(∀ e ∈ (run_estimates (fun _ => 0)
      [estimate_w90, estimate_w30]).estimates, confidence_score e = 0) := by
    rw [hest]
    intro hall
    have := hall estimate_w90 (by simp)
    norm_num +decide [confidence_score, estimate_w90] at this
  have h3 := (combined_price_spec (fun _ => 0)
    [estimate_w90, estimate_w30] h1).1 h2
  refine ⟨h1, h2, ?_⟩
  rw [h3, hest]
  norm_num +decide [confidence_score, pm2, estimate_w90, estimate_w30]

/-- Claim C3 (code behaviour at the failing input): an estimate whose
`prix_m2` is exactly 0 — a non-null price — is NOT accumulated by
`add_estimate`; the Python truthiness test `if estimate.prix_m2:` conflates
a zero price with a null one. -/
theorem add_estimate_skips_zero_price :
    zero_price_estimate.prix_m2 ≠ none ∧
    add_estimate (fun _ => 0) MultiSourceEstimate.init zero_price_estimate =
      MultiSourceEstimate.init ∧
    (run_estimates (fun _ => 0) [zero_price_estimate]).estimates = [] := by
  refine ⟨by decide, ?_, ?_⟩ <;>
    norm_num +decide [run_estimates, add_estimate, truthy_prix,
      zero_price_estimate, MultiSourceEstimate.init]

theorem foldl_min_le_init (l : List ℚ) (a : ℚ) : l.foldl min a ≤ a := by
  induction l generalizing a with
  | nil => simp
  | cons b t ih => exact le_trans (ih (min a b)) (min_le_left a b)

theorem foldl_min_le_mem (l : List ℚ) (a x : ℚ) (hx : x ∈ l) :
    l.foldl min a ≤ x := by
  induction l generalizing a with
  | nil => simp at hx
  | cons b t ih =>
    rcases List.mem_cons.mp hx with rfl | h
    · exact le_trans (foldl_min_le_init t (min a x)) (min_le_right a x)
    · exact ih (min a b) h

theorem list_min_le_mem (l : List ℚ) (x : ℚ) (hx : x ∈ l) :
    list_min l ≤ x := by
  cases l with
  | nil => simp at hx
  | cons p ps =>
    unfold list_min
    exact foldl_min_le_mem _ _ _ hx

theorem init_le_foldl_max (l : List ℚ) (a : ℚ) : a ≤ l.foldl max a := by
  induction l generalizing a with
  | nil => simp
  | cons b t ih => exact le_trans (le_max_left a b) (ih (max a b))

theorem mem_le_foldl_max (l : List ℚ) (a x : ℚ) (hx : x ∈ l) :
    x ≤ l.foldl max a := by
  induction l generalizing a with
  | nil => simp at hx
  | cons b t ih =>
    rcases List.mem_cons.mp hx with rfl | h
    · exact le_trans (le_max_right a x) (init_le_foldl_max t (max a x))
    · exact ih (max a b) h

theorem mem_le_list_max (l : List ℚ) (x : ℚ) (hx : x ∈ l) :
    x ≤ list_max l := by
  cases l with
  | nil => simp at hx
  | cons p ps =>
    unfold list_max
    exact mem_le_foldl_max _ _ _ hx

theorem sum_weighted_ge (l : List PriceEstimate) (mn : ℚ)
    (hmn : ∀ e ∈ l, mn ≤ pm2 e) :
    mn * (l.map confidence_score).sum ≤
      (l.map (fun e => pm2 e * confidence_score e)).sum := by
  induction l with
  | nil => simp
  | cons e t ih =>
    simp only [List.map_cons, List.sum_cons]
    rw [mul_add]
    exact add_le_add
      (mul_le_mul_of_nonneg_right (hmn e (by simp)) (confidence_score_nonneg e))
      (ih (fun x hx => hmn x (by simp [hx])))

theorem sum_weighted_le (l : List PriceEstimate) (mx : ℚ)
    (hmx : ∀ e ∈ l, pm2 e ≤ mx) :
    (l.map (fun e => pm2 e * confidence_score e)).sum ≤
      mx * (l.map confidence_score).sum := by
  induction l with
  | nil => simp
  | cons e t ih =>
    simp only [List.map_cons, List.sum_cons]
    rw [mul_add]
    exact add_le_add
      (mul_le_mul_of_nonneg_right (hmx e (by simp)) (confidence_score_nonneg e))
      (ih (fun x hx => hmx x (by simp [hx])))

theorem sum_pm2_ge (l : List PriceEstimate) (mn : ℚ)
    (hmn : ∀ e ∈ l, mn ≤ pm2 e) :
    mn * (l.length : ℚ) ≤ (l.map pm2).sum := by
  induction l with
  | nil => simp
  | cons e t ih =>
    simp only [List.map_cons, List.sum_cons, List.length_cons]
    push_cast
    have h1 := hmn e (by simp)
    have h2 := ih (fun x hx => hmn x (by simp [hx]))
    nlinarith

theorem sum_pm2_le (l : List PriceEstimate) (mx : ℚ)
    (hmx : ∀ e ∈ l, pm2 e ≤ mx) :
    (l.map pm2).sum ≤ mx * (l.length : ℚ) := by
  induction l with
  | nil => simp
  | cons e t ih =>
    simp only [List.map_cons, List.sum_cons, List.length_cons]
    push_cast
    have h1 := hmx e (by simp)
    have h2 := ih (fun x hx => hmx x (by simp [hx]))
    nlinarith

theorem weighted_combined_bounds (l : List PriceEstimate) (hne : l ≠ []) :
    list_min (l.map pm2) ≤ weighted_combined l ∧
    weighted_combined l ≤ list_max (l.map pm2) := by
  have hmn : ∀ e ∈ l, list_min (l.map pm2) ≤ pm2 e := fun e he =>
    list_min_le_mem _ _ (List.mem_map_of_mem pm2 he)
  have hmx : ∀ e ∈ l, pm2 e ≤ list_max (l.map pm2) := fun e he =>
    mem_le_list_max _ _ (List.mem_map_of_mem pm2 he)
  have hlen : 0 < (l.length : ℚ) := by
    have := List.length_pos.mpr hne
    exact_mod_cast this
  unfold weighted_combined
  split_ifs with hW
  · exact ⟨(le_div_iff₀ hW).mpr (sum_weighted_ge l _ hmn),
      (div_le_iff₀ hW).mpr (by
        have := sum_weighted_le l _ hmx
        linarith [this])⟩
  · exact ⟨(le_div_iff₀ hlen).mpr (sum_pm2_ge l _ hmn),
      (div_le_iff₀ hlen).mpr (by
        have := sum_pm2_le l _ hmx
        linarith [this])⟩

/-- Claim C10: after any sequence of `add_estimate` calls leaving at least
one accumulated estimate, the combined, min and max prices are all non-null
and satisfy min ≤ combined ≤ max. -/
theorem combined_within_range_spec (sqrtQ : ℚ → ℚ)
    (l : List PriceEstimate)
    (hne : (run_estimates sqrtQ l).estimates ≠ []) :
    ∃ mn c mx,
      (run_estimates sqrtQ l).prix_m2_min = some mn ∧
      (run_estimates sqrtQ l).prix_m2_combined = some c ∧
      (run_estimates sqrtQ l).prix_m2_max = some mx ∧
      mn ≤ c ∧ c ≤ mx := by
  have hinv : RecalcInv (run_estimates sqrtQ l) :=
    foldl_add_estimate_recalcInv sqrtQ l _ recalcInv_init
  obtain ⟨hcmb, hmin, hmax⟩ := hinv.2 hne
  obtain ⟨hb1, hb2⟩ := weighted_combined_bounds _ hne
  exact ⟨_, _, _, hmin, hcmb, hmax, hb1, hb2⟩

/-- Witness for C10: with the concrete estimates of prices 1000 and 4000,
the state has min 1000 ≤ combined 1750 ≤ max 4000. -/
theorem combined_within_range_spec_witness :
    (run_estimates (fun _ => 0) [estimate_w90, estimate_w30]).estimates ≠ [] ∧
    ∃ mn c mx,
      (run_estimates (fun _ => 0)
        [estimate_w90, estimate_w30]).prix_m2_min = some mn ∧
      (run_estimates (fun _ => 0)
        [estimate_w90, estimate_w30]).prix_m2_combined = some c ∧
      (run_estimates (fun _ => 0)
        [estimate_w90, estimate_w30]).prix_m2_max = some mx ∧
      mn ≤ c ∧ c ≤ mx :=
  ⟨by norm_num +decide [run_estimates, add_estimate, truthy_prix, recalculate,
      calculate_reliability, confidence_score, estimate_w90, estimate_w30,
      MultiSourceEstimate.init, pm2, list_min, list_max, breakdown_step],
   combined_within_range_spec (fun _ => 0) [estimate_w90, estimate_w30]
     (by norm_num +decide [run_estimates, add_estimate, truthy_prix,
        recalculate, calculate_reliability, confidence_score, estimate_w90,
        estimate_w30, MultiSourceEstimate.init, pm2, list_min, list_max,
        breakdown_step])⟩

theorem dvf_valid_prices_eq (samples : List (Option ℚ)) :
    dvf_valid_prices samples = claim_survivors samples := by
  induction samples with
  | nil => rfl
  | cons o t ih =>
    cases o with
    | none =>
      simp only [dvf_valid_prices, claim_survivors, List.filterMap_cons,
        truthy_prix] at ih ⊢
      simpa using ih
    | some v =>
      simp only [dvf_valid_prices, claim_survivors, List.filterMap_cons,
        Option.getD_some, id, truthy_prix] at ih ⊢
      by_cases h5 : MIN_PRICE_M2 ≤ v
      · have hv0 : v ≠ 0 := by
          intro h
          rw [h] at h5
          norm_num [MIN_PRICE_M2] at h5
        by_cases h15 : v ≤ MAX_PRICE_M2
        · simp only [decide_not] at ih ⊢
          simp [hv0, h5, h15, List.filter_cons, ih]
        · simp only [decide_not] at ih ⊢
          simp [hv0, h5, h15, List.filter_cons, ih]
      · simp only [decide_not] at ih ⊢
        simp [h5, List.filter_cons, ih]

/-- Claim C5: the inlined DVF aggregation keeps exactly the in-range
values, returns a null central value (with the surviving count) when fewer
than 3 values survive, and otherwise the median of the sorted survivors;
on the concrete sample list [100, 5000000, 2000, 2100, 2200] it yields
central value 2100 with count 3. -/
theorem dvf_aggregate_spec (samples : List (Option ℚ)) :
    (dvf_aggregate samples).2 = (claim_survivors samples).length ∧
    (dvf_aggregate samples).1 =
      (if (claim_survivors samples).length < 3 then none
       else some (median_of_sorted ((claim_survivors samples).mergeSort))) ∧
    dvf_aggregate [some 100, some 5000000, some 2000, some 2100, some 2200] =
      (some 2100, 3) := by
  refine ⟨?_, ?_, ?_⟩
  · simp only [dvf_aggregate, dvf_valid_prices_eq, MIN_COMPARABLES]
    split_ifs <;> rfl
  · simp only [dvf_aggregate, dvf_valid_prices_eq, MIN_COMPARABLES,
      median_of_sorted]
    split_ifs <;> rfl
  · have hv : dvf_valid_prices
        [some 100, some 5000000, some 2000, some 2100, some 2200] =
        [2000, 2100, 2200] := by
      norm_num +decide [dvf_valid_prices, truthy_prix, MIN_PRICE_M2,
        MAX_PRICE_M2, List.filterMap_cons]
    simp only [dvf_aggregate, hv]
    rw [List.mergeSort_eq_self (by norm_num [List.sorted_cons])]
    norm_num [MIN_COMPARABLES]

/-- Claim C8: the DVF aggregation is permutation-invariant — both the
central value and the surviving count agree on any two permutations of the
same sample list. -/
theorem dvf_aggregate_perm_invariant (s1 s2 : List (Option ℚ))
    (hp : s1.Perm s2) : dvf_aggregate s1 = dvf_aggregate s2 := by
  have hperm : (dvf_valid_prices s1).Perm (dvf_valid_prices s2) :=
    hp.filterMap _
  have hlen : (dvf_valid_prices s1).length = (dvf_valid_prices s2).length :=
    hperm.length_eq
  have hsorted : (dvf_valid_prices s1).mergeSort =
      (dvf_valid_prices s2).mergeSort := by
    exact List.eq_of_perm_of_sorted
      (((List.mergeSort_perm _ _).trans hperm).trans
        (List.mergeSort_perm _ _).symm)
      (List.sorted_mergeSort' _) (List.sorted_mergeSort' _)
  simp only [dvf_aggregate]
  rw [hsorted, hlen]

/-- Witness for C8: the aggregation agrees on a concrete list and a
permutation of it. -/
theorem dvf_aggregate_perm_invariant_witness :
    ([some 2000, some 100, some 2100] : List (Option ℚ)).Perm
      [some 100, some 2100, some 2000] ∧
    dvf_aggregate [some 2000, some 100, some 2100] =
      dvf_aggregate [some 100, some 2100, some 2000] :=
  ⟨by decide, dvf_aggregate_perm_invariant _ _ (by decide)⟩

theorem match_signal_fst (sw : ℚ × ℚ) (avail : Prop) [Decidable avail]
    (sat : Prop) [Decidable sat] (w : ℚ) :
    (match_signal sw avail sat w).1 = sw.1 + (if avail ∧ sat then w else 0) := by
  unfold match_signal
  by_cases ha : avail <;> by_cases hs : sat <;> simp [ha, hs]

theorem match_signal_snd (sw : ℚ × ℚ) (avail : Prop) [Decidable avail]
    (sat : Prop) [Decidable sat] (w : ℚ) :
    (match_signal sw avail sat w).2 = sw.2 + (if avail then w else 0) := by
  unfold match_signal
  by_cases ha : avail <;> simp [ha]

theorem guard_eq (S W : ℚ) (hW : 0 < W) :
    (if 0 < W then S / W else 0) = (if W = 0 then 0 else S / W) := by
  rw [if_pos hW, if_neg (ne_of_gt hW)]

theorem ite_and_le_ite {p q : Prop} [Decidable p] [Decidable q] (w : ℚ)
    (hw : 0 ≤ w) : (if p ∧ q then w else 0) ≤ (if p then w else 0) := by
  split_ifs with h1 h2 <;>
    first | exact le_rfl | exact hw | exact absurd h1.1 h2

theorem ite_weight_nonneg {p : Prop} [Decidable p] (w : ℚ) (hw : 0 ≤ w) :
    (0 : ℚ) ≤ (if p then w else 0) := by
  split_ifs <;> simp [hw]

theorem match_avail_weight_pos (a1 a2 : Auction) :
    0 < match_avail_weight a1 a2 := by
  unfold match_avail_weight
  have h1 := ite_weight_nonneg (p := a1.date_vente ≠ none ∧ a2.date_vente ≠ none)
    (0.3 : ℚ) (by norm_num)
  have h2 := ite_weight_nonneg (p := a1.tribunal ≠ "" ∧ a2.tribunal ≠ "")
    (0.15 : ℚ) (by norm_num)
  have h3 := ite_weight_nonneg
    (p := truthyN 0 a1.mise_a_prix ∧ truthyN 0 a2.mise_a_prix)
    (0.2 : ℚ) (by norm_num)
  have h4 := ite_weight_nonneg (p := a1.ville ≠ "" ∧ a2.ville ≠ "")
    (0.15 : ℚ) (by norm_num)
  have h6 := ite_weight_nonneg (p := truthyN 0 a1.surface ∧ truthyN 0 a2.surface)
    (0.1 : ℚ) (by norm_num)
  linarith

/-- Claim C7 (amended): the match score equals the sum of the weights of
the satisfied signals divided by the sum of the weights of the available
signals (availability in the Python-truthiness sense: numeric fields must
be non-null AND non-zero, string fields non-empty; the property-type
signal is always available), an unavailable signal being excluded from
both numerator and denominator; and the score always lies in [0, 1]. -/
theorem match_auctions_spec (ratio : String → String → ℚ)
    (a1 a2 : Auction) :
    match_auctions ratio a1 a2 =
      (if match_avail_weight a1 a2 = 0 then 0
       else match_sat_weight ratio a1 a2 / match_avail_weight a1 a2) ∧
    0 ≤ match_auctions ratio a1 a2 ∧ match_auctions ratio a1 a2 ≤ 1 := by
  have hpos := match_avail_weight_pos a1 a2
  have heq : match_auctions ratio a1 a2 =
      (if match_avail_weight a1 a2 = 0 then 0
       else match_sat_weight ratio a1 a2 / match_avail_weight a1 a2) := by
    simp only [match_auctions, match_signal_fst, match_signal_snd, true_and,
      if_true, zero_add]
    exact guard_eq _ _ hpos
  have hS0 : 0 ≤ match_sat_weight ratio a1 a2 := by
    unfold match_sat_weight
    split_ifs <;> norm_num
  have hSW : match_sat_weight ratio a1 a2 ≤ match_avail_weight a1 a2 := by
    unfold match_sat_weight match_avail_weight
    refine add_le_add (add_le_add (add_le_add (add_le_add (add_le_add
      ?_ ?_) ?_) ?_) ?_) ?_
    · exact ite_and_le_ite _ (by norm_num)
    · exact ite_and_le_ite _ (by norm_num)
    · exact ite_and_le_ite _ (by norm_num)
    · exact ite_and_le_ite _ (by norm_num)
    · split_ifs <;> norm_num
    · exact ite_and_le_ite _ (by norm_num)
  refine ⟨heq, ?_, ?_⟩
  · rw [heq, if_neg (ne_of_gt hpos)]
    exact div_nonneg hS0 hpos.le
  · rw [heq, if_neg (ne_of_gt hpos)]
    exact (div_le_one hpos).mpr hSW

/-- Counterexample to C7 as stated: with a starting price that is present
but 0.0 on one side, the code treats the price signal as unavailable
(score 1 here: date and type signals only), while the claim's
non-null-availability formula includes the unsatisfied price signal and
yields 2/3. -/
theorem match_score_nonnull_refuted :
    match_auctions (fun _ _ => 0) cex_auction_a cex_auction_b = 1 ∧
    spec_match_score_nonnull (fun _ _ => 0) cex_auction_a cex_auction_b =
      2 / 3 ∧
    match_auctions (fun _ _ => 0) cex_auction_a cex_auction_b ≠
      spec_match_score_nonnull (fun _ _ => 0) cex_auction_a cex_auction_b := by
  have e1 : match_auctions (fun _ _ => 0) cex_auction_a cex_auction_b = 1 := by
    norm_num +decide [match_auctions, match_signal, similarity, truthyN,
      cex_auction_a, cex_auction_b]
  have e2 : spec_match_score_nonnull (fun _ _ => 0) cex_auction_a
      cex_auction_b = 2 / 3 := by
    norm_num +decide [spec_match_score_nonnull, match_avail_weight_nonnull,
      match_sat_weight_nonnull, similarity, cex_auction_a, cex_auction_b]
  exact ⟨e1, e2, by rw [e1, e2]; norm_num⟩

/-- Claim C9: for the postal-code field with both sides populated, the
value matching the strict 5-digit pattern wins (with its source as
provenance) when exactly one side matches; otherwise source A wins.  In
particular A="750x1" against B="75015" yields "75015" from B. -/
theorem pick_postal_spec (v1 v2 s1 s2 : String) (h1 : v1 ≠ "")
    (h2 : v2 ≠ "") :
    pick_best_value_postal v1 v2 s1 s2 =
      (if is_five_digits v2 && !is_five_digits v1 then (some v2, s2)
       else if is_five_digits v1 && !is_five_digits v2 then (some v1, s1)
       else (some v1, s1)) ∧
    pick_best_value_postal "750x1" "75015" "A" "B" = (some "75015", "B") := by
  constructor
  · unfold pick_best_value_postal
    rw [if_neg (by tauto), if_neg (by tauto), if_neg (by tauto)]
    cases hA : is_five_digits v1 <;> cases hB : is_five_digits v2 <;>
      simp [hA, hB]
  · decide

/-- Witness for C9 at the concrete pair of the claim. -/
theorem pick_postal_spec_witness :
    ("750x1" : String) ≠ "" ∧ ("75015" : String) ≠ "" ∧
    pick_best_value_postal "750x1" "75015" "A" "B" = (some "75015", "B") :=
  ⟨by decide, by decide,
    (pick_postal_spec "750x1" "75015" "A" "B" (by decide) (by decide)).2⟩

/-- Claim C4 (code behaviour at the failing input): on an unmatched record
missing its department, the geo-enrichment pass applies the inference
(department := "93") and reports it in its change list, but
`validate_and_merge_all` discards that list — its output is the bare
mutated record, and no notes list of any kind is part of the pipeline's
returned value. -/
theorem pipeline_discards_enrichment_notes :
    (enrich_from_postal (fun _ _ => 0) unmatched_auction).2 =
      ["department inferred: 93"] ∧
    (enrich_from_postal (fun _ _ => 0) unmatched_auction).1 =
      { unmatched_auction with department := "93" } ∧
    validate_and_merge_all (fun _ _ => 0) [] [unmatched_auction] (1 / 2) =
      [{ unmatched_auction with department := "93" }] := by
  refine ⟨?_, ?_, ?_⟩ <;> decide
